import Mathlib

/-!
Shallow embedding of the event-source plugin and trigger-matching subsystem
from `src/zenml/event_sources/base_event_source_plugin.py`, together with
theorems checking the natural-language specification against it.

Pure functions of the source become Lean functions; the abstract extension
points of `BaseEventSourcePlugin` (`_create_event_source`,
`_get_all_relevant_event_sources`, `_get_matching_triggers`) become fields of
a structure, so one structure value is one concrete plugin; exceptions become
`Except`; the observable side effects of the two public operations (the
persistence call, the call to `_get_matching_triggers`, the `logger.info`
stub, and a hypothetical Event Hub dispatch) are recorded in an explicit
trace of `Call` actions.
-/

namespace EventSources

/-- JSON-like scalar values appearing in raw configuration payloads and in
flavor-specific event fields (`Any` on the Python side). -/
inductive Value where
  | str (s : String)
  | int (n : Int)
  | bool (b : Bool)
  | null
deriving DecidableEq, Repr

/-- A raw, untyped key/value configuration payload (`Dict[str, Any]`). -/
abbrev RawConfig := List (String × Value)

/-- Event source and trigger identifiers (`uuid.UUID`). -/
abbrev UUID := Nat

/-- `BaseEvent`, the base class for all inbound events: concrete events are
flavor-specific field bags, so the embedding carries the fields explicitly. -/
structure BaseEvent where
  fields : List (String × Value)
deriving DecidableEq, Repr

/-- Python exceptions relevant to `create_event_source`: pydantic
`ValidationError` (a subclass of `ValueError`, carrying the names of the
failing fields), a plain `ValueError`, and any other exception. -/
inductive PyExc where
  | validationError (failed_fields : List String)
  | valueError (msg : String)
  | otherError (msg : String)
deriving DecidableEq, Repr

/-- Whether `except ValueError` catches the exception: it catches plain
`ValueError` and its subclass `ValidationError`, nothing else. -/
def PyExc.isValueError : PyExc → Bool
  | .validationError _ => true
  | .valueError _ => true
  | .otherError _ => false

/-- The field names an exception identifies as failing: a pydantic
`ValidationError` carries them, other exceptions identify none. -/
def PyExc.failed_field_names : PyExc → List String
  | .validationError fs => fs
  | _ => []

/-- The machine-readable schema of a pydantic model class, as produced by
`json.loads(cls.schema_json())`: a structural description giving the model
title and the field names with their types. -/
structure Schema where
  title : String
  properties : List (String × String)
deriving DecidableEq, Repr

/-- The typed configuration value produced by a successful pydantic
construction `cls(**raw)`. -/
structure TypedConfig where
  fields : List (String × Value)
deriving DecidableEq, Repr

/-- A concrete `EventSourceConfig` class (a pydantic model class): calling it
on raw kwargs either yields the typed validated value or raises, and
`schema_json` is its machine-readable schema. -/
structure EventSourceConfigClass where
  build : RawConfig → Except PyExc TypedConfig
  schema_json : Schema

/-- `EventFilterConfig`: the core uses a filter configuration polymorphically
through its one capability, `event_matches_filter`. -/
structure EventFilterConfig where
  event_matches_filter : BaseEvent → Bool

/-- A concrete `EventFilterConfig` class as a flavor declares it; the flavor
descriptor only needs its machine-readable schema. -/
structure EventFilterConfigClass where
  schema_json : Schema

/-- Modelled from the spec: the creation request
`{flavorName: string, configuration: map<string, any>}` (the concrete
`EventSourceRequest` model of `zenml.models` is outside this repository
slice; the core only reads `configuration`). -/
structure EventSourceRequest where
  flavor_name : String
  configuration : RawConfig
deriving DecidableEq, Repr

/-- Modelled from the spec: `EventSourceResponse` contains at minimum an
assigned identifier and the validated configuration (the concrete model of
`zenml.models` is outside this repository slice; the core treats it as
opaque). -/
structure EventSourceResponse where
  id : UUID
  configuration : RawConfig
deriving DecidableEq, Repr

/-- Observable actions of the plugin operations: an invocation of the
persistence extension point `_create_event_source`, an invocation of
`_get_matching_triggers`, the `logger.info` call of `process_event`, and a
dispatch to the Event Hub collaborator (which the source only mentions in a
TODO comment and never performs). -/
inductive Call where
  | createEventSourceCall (req : EventSourceRequest)
  | getMatchingTriggersCall (event_source_ids : List UUID) (event : BaseEvent)
  | logInfoCall (trigger_ids : List UUID)
  | hubDispatchCall (event : BaseEvent) (trigger_ids : List UUID)
deriving DecidableEq, Repr

/-- Whether an action is a dispatch to the Event Hub collaborator. -/
def Call.isHubDispatch : Call → Bool
  | .hubDispatchCall _ _ => true
  | _ => false

/-- `BaseEventSourcePlugin`: `config_class` is the property returning the
flavor's configuration class, and the three abstract methods are fields, so
one structure value is one concrete plugin implementation. -/
structure BaseEventSourcePlugin where
  config_class : EventSourceConfigClass
  _create_event_source : EventSourceRequest → EventSourceResponse
  _get_all_relevant_event_sources : BaseEvent → List UUID
  _get_matching_triggers : List UUID → BaseEvent → List UUID

/-- `BaseEventSourcePlugin._fail_if_event_source_configuration_invalid`:
tries `self.config_class(**event_source.configuration)`; `except ValueError`
raises the constant `ValueError("Invalid Configuration.")`; other exceptions
propagate; on success it returns nothing. -/
def _fail_if_event_source_configuration_invalid
    (self : BaseEventSourcePlugin) (event_source : EventSourceRequest) :
    Except PyExc Unit :=
  match self.config_class.build event_source.configuration with
  | .ok _ => .ok ()
  | .error e =>
      if e.isValueError then .error (.valueError "Invalid Configuration.")
      else .error e

/-- `BaseEventSourcePlugin.create_event_source`: validates the raw
configuration first and only then delegates to `_create_event_source` on the
unchanged request; the trace records whether the persistence extension point
was invoked and with which request. -/
def create_event_source (self : BaseEventSourcePlugin)
    (event_source : EventSourceRequest) :
    Except PyExc EventSourceResponse × List Call :=
  match _fail_if_event_source_configuration_invalid self event_source with
  | .error e => (.error e, [])
  | .ok _ =>
      (.ok (self._create_event_source event_source),
       [.createEventSourceCall event_source])

/-- `BaseEventSourcePlugin.process_event`: narrows down to the relevant event
sources; if any exist (Python truthiness of the list), asks
`_get_matching_triggers` for the matching triggers and logs them — the
forward to the Event Hub is only a TODO comment in the source, so no
`hubDispatchCall` is ever emitted. -/
def process_event (self : BaseEventSourcePlugin) (event : BaseEvent) :
    List Call :=
  let event_source_ids := self._get_all_relevant_event_sources event
  if event_source_ids.isEmpty then []
  else
    let trigger_ids := self._get_matching_triggers event_source_ids event
    [.getMatchingTriggersCall event_source_ids event,
     .logInfoCall trigger_ids]

/-- Modelled from the spec: the plugin-type tag enum (`zenml.enums.PluginType`
is outside this repository slice); the spec fixes event-source flavors to the
"event source" tag and names actions as the other plugin family. -/
inductive PluginType where
  | EVENT_SOURCE
  | ACTION
deriving DecidableEq, Repr

/-- `BaseEventSourcePluginFlavor`: the class variables binding a flavor name
to its declared configuration classes. -/
structure BaseEventSourcePluginFlavor where
  FLAVOR : String
  EVENT_SOURCE_CONFIG_CLASS : EventSourceConfigClass
  EVENT_FILTER_CONFIG_CLASS : EventFilterConfigClass

/-- `BaseEventSourcePluginFlavor.TYPE`, a class variable fixed to
`PluginType.EVENT_SOURCE` for the whole flavor family. -/
def BaseEventSourcePluginFlavor.TYPE : PluginType := PluginType.EVENT_SOURCE

/-- `BaseEventSourcePluginFlavor.get_event_filter_config_schema`: as written
in the source, it loads the schema of `EVENT_SOURCE_CONFIG_CLASS` (sic). -/
def get_event_filter_config_schema (cls : BaseEventSourcePluginFlavor) :
    Schema :=
  cls.EVENT_SOURCE_CONFIG_CLASS.schema_json

/-- `BaseEventSourcePluginFlavor.get_event_source_config_schema`: as written
in the source, it loads the schema of `EVENT_FILTER_CONFIG_CLASS` (sic). -/
def get_event_source_config_schema (cls : BaseEventSourcePluginFlavor) :
    Schema :=
  cls.EVENT_FILTER_CONFIG_CLASS.schema_json

/-- `EventFlavorResponse`: the response model for event flavors; it extends
`BasePluginFlavorResponse` (outside this repository slice) whose
`flavor_name` and `plugin_type` fields the source populates explicitly in
`get_plugin_flavor_response_model`, so the embedding flattens them in. -/
structure EventFlavorResponse where
  flavor_name : String
  plugin_type : PluginType
  source_config_schema : Schema
  filter_config_schema : Schema
deriving DecidableEq, Repr

/-- `BaseEventSourcePluginFlavor.get_plugin_flavor_response_model`: converts
the flavor into a response model. -/
def get_plugin_flavor_response_model (cls : BaseEventSourcePluginFlavor) :
    EventFlavorResponse :=
  { flavor_name := cls.FLAVOR
    plugin_type := BaseEventSourcePluginFlavor.TYPE
    source_config_schema := get_event_source_config_schema cls
    filter_config_schema := get_event_filter_config_schema cls }

/-- A persisted trigger: its identifier, the event source it is registered
against, and its re-hydrated filter configuration. -/
structure Trigger where
  id : UUID
  event_source_id : UUID
  filter : EventFilterConfig

/-- Modelled from the spec: `_get_matching_triggers` is abstract in the
source; its contract (spec 4.4 step 3) is that, for every trigger registered
against any identifier in the input set, the trigger's stored filter is
evaluated on the event, triggers whose filter returns true are included, and
the result is deduplicated by trigger identifier. -/
def matchingTriggersFromStore (triggers : List Trigger)
    (event_source_ids : List UUID) (event : BaseEvent) : List UUID :=
  ((triggers.filter fun t =>
      decide (t.event_source_id ∈ event_source_ids)
        && t.filter.event_matches_filter event).map Trigger.id).dedup

/-- Modelled from the spec: the "webhook" flavor's `EventSourceConfig` has a
single required string field `repo_url` (concrete scenario of spec section 8);
pydantic construction fails with a `ValidationError` naming the field when it
is missing or wrongly typed. -/
def webhookSourceConfigClass : EventSourceConfigClass where
  build raw :=
    match raw.lookup "repo_url" with
    | some (.str s) => .ok ⟨[("repo_url", .str s)]⟩
    | some _ => .error (.validationError ["repo_url"])
    | none => .error (.validationError ["repo_url"])
  schema_json := ⟨"WebhookEventSourceConfig", [("repo_url", "string")]⟩

/-- Modelled from the spec: the "webhook" flavor's `EventFilterConfig`
declares a `branch` field. -/
def webhookFilterConfigClass : EventFilterConfigClass where
  schema_json := ⟨"WebhookEventFilterConfig", [("branch", "string")]⟩

/-- The "webhook" flavor descriptor, binding the flavor name to its two
configuration classes. -/
def webhookFlavor : BaseEventSourcePluginFlavor where
  FLAVOR := "webhook"
  EVENT_SOURCE_CONFIG_CLASS := webhookSourceConfigClass
  EVENT_FILTER_CONFIG_CLASS := webhookFilterConfigClass

/-- Modelled from the spec: a concrete webhook filter matching events whose
`branch` field equals the configured branch; on an event shape it cannot
interpret (no string `branch` field) it returns false rather than raising. -/
def branchFilter (branch : String) : EventFilterConfig where
  event_matches_filter ev :=
    match ev.fields.lookup "branch" with
    | some (.str b) => b == branch
    | _ => false

/-- A store of three persisted triggers (spec section 8 scenarios): triggers 7
and 8 on event source 1 with filters branch = main and branch = dev, and
trigger 7 also reachable through event source 2. -/
def demoTriggers : List Trigger :=
  [⟨7, 1, branchFilter "main"⟩, ⟨8, 1, branchFilter "dev"⟩,
   ⟨7, 2, branchFilter "main"⟩]

/-- A fixed response returned by the demo persistence extension point. -/
def demoResponse : EventSourceResponse := ⟨42, []⟩

/-- A concrete webhook plugin: event sources 1 and 2 are always relevant and
matching triggers come from the demo store. -/
def demoPlugin : BaseEventSourcePlugin where
  config_class := webhookSourceConfigClass
  _create_event_source := fun _ => demoResponse
  _get_all_relevant_event_sources := fun _ => [1, 2]
  _get_matching_triggers := matchingTriggersFromStore demoTriggers

/-- The inbound event of the spec's concrete scenario. -/
def demoEvent : BaseEvent :=
  ⟨[("repo_url", .str "https://x/y"), ("branch", .str "main")]⟩

/-- A well-typed creation request for the webhook flavor. -/
def goodRequest : EventSourceRequest :=
  ⟨"webhook", [("repo_url", .str "https://x/y")]⟩

/-- The spec's wrong-typed creation request: `repo_url` is an integer. -/
def badRequest : EventSourceRequest :=
  ⟨"webhook", [("repo_url", .int 123)]⟩

/-- A configuration class whose construction raises a non-ValueError
exception (such as a `TypeError` escaping pydantic), to observe how
`create_event_source` propagates it. -/
def throwingConfigClass : EventSourceConfigClass where
  build _ := .error (.otherError "TypeError: unhashable type")
  schema_json := ⟨"ThrowingConfig", []⟩

/-- The demo plugin with the throwing configuration class. -/
def throwingPlugin : BaseEventSourcePlugin :=
  { demoPlugin with config_class := throwingConfigClass }

/-- Modelled from the spec: a two-field configuration class
(`repo_url`, `token`, both strings), to observe that the error reported by
`create_event_source` is the same whichever field fails validation. -/
def twoFieldConfigClass : EventSourceConfigClass where
  build raw :=
    match raw.lookup "repo_url", raw.lookup "token" with
    | some (.str r), some (.str t) =>
        .ok ⟨[("repo_url", .str r), ("token", .str t)]⟩
    | some (.str _), _ => .error (.validationError ["token"])
    | _, some (.str _) => .error (.validationError ["repo_url"])
    | _, _ => .error (.validationError ["repo_url", "token"])
  schema_json := ⟨"TwoFieldConfig", [("repo_url", "string"), ("token", "string")]⟩

/-- The demo plugin with the two-field configuration class. -/
def twoFieldPlugin : BaseEventSourcePlugin :=
  { demoPlugin with config_class := twoFieldConfigClass }

/-- A request for the two-field class missing only `token`. -/
def tokenMissingRequest : EventSourceRequest :=
  ⟨"webhook", [("repo_url", .str "https://x/y")]⟩

/-- A request for the two-field class missing only `repo_url`. -/
def repoUrlMissingRequest : EventSourceRequest :=
  ⟨"webhook", [("token", .str "t0")]⟩

/-- The demo plugin with no relevant event sources for any event. -/
def noSourcePlugin : BaseEventSourcePlugin :=
  { demoPlugin with _get_all_relevant_event_sources := fun _ => [] }

/-- Claim C1 (code-bug evidence): the two schema getters are swapped in the
source — `get_event_source_config_schema` returns the schema of
`EVENT_FILTER_CONFIG_CLASS` and `get_event_filter_config_schema` returns the
schema of `EVENT_SOURCE_CONFIG_CLASS` — so on the webhook flavor, whose two
schemas differ, `get_event_source_config_schema` does not return the schema
of the declared `EventSourceConfig` type as the claim states. -/
theorem c1_schema_getters_swapped :
    (∀ cls : BaseEventSourcePluginFlavor,
        get_event_source_config_schema cls
            = cls.EVENT_FILTER_CONFIG_CLASS.schema_json
      ∧ get_event_filter_config_schema cls
            = cls.EVENT_SOURCE_CONFIG_CLASS.schema_json)
    ∧ get_event_source_config_schema webhookFlavor
        ≠ webhookFlavor.EVENT_SOURCE_CONFIG_CLASS.schema_json
    ∧ get_event_source_config_schema webhookFlavor
        = ⟨"WebhookEventFilterConfig", [("branch", "string")]⟩ := by
  refine ⟨fun cls => ⟨rfl, rfl⟩, ?_, rfl⟩
  decide

/-- Claim C2: when the raw configuration fails pydantic validation (a
`ValueError`-kind failure of the configuration class), `create_event_source`
raises the `InvalidConfiguration` error `ValueError("Invalid Configuration.")`
and its trace is empty, so the persistence extension point
`_create_event_source` is never invoked: validation completes strictly before
any persistence attempt. -/
theorem c2_invalid_config_never_persists
    (self : BaseEventSourcePlugin) (req : EventSourceRequest) (e : PyExc)
    (hbuild : self.config_class.build req.configuration = .error e)
    (hval : e.isValueError = true) :
    (create_event_source self req).1
        = .error (.valueError "Invalid Configuration.")
    ∧ (create_event_source self req).2 = [] := by
  unfold create_event_source _fail_if_event_source_configuration_invalid
  rw [hbuild]
  simp [hval]

/-- Witness for C2: the spec's wrong-typed webhook request (integer
`repo_url`) fails validation, and `create_event_source` raises the constant
error with an empty trace. -/
theorem c2_witness :
    webhookSourceConfigClass.build badRequest.configuration
        = .error (.validationError ["repo_url"])
    ∧ (PyExc.validationError ["repo_url"]).isValueError = true
    ∧ (create_event_source demoPlugin badRequest).1
        = .error (.valueError "Invalid Configuration.")
    ∧ (create_event_source demoPlugin badRequest).2 = [] :=
  ⟨rfl, rfl,
   (c2_invalid_config_never_persists demoPlugin badRequest
      (.validationError ["repo_url"]) rfl rfl).1,
   (c2_invalid_config_never_persists demoPlugin badRequest
      (.validationError ["repo_url"]) rfl rfl).2⟩

/-- Claim C3 (code-bug evidence): `process_event` never dispatches to the
Event Hub — the hand-off is a TODO stub and the source only logs the trigger
identifiers — shown for every plugin and event, and evaluated on a concrete
event whose matching trigger set is nonempty. -/
theorem c3_no_event_hub_dispatch :
    (∀ (self : BaseEventSourcePlugin) (event : BaseEvent),
        (process_event self event).all (fun c => !c.isHubDispatch) = true)
    ∧ process_event demoPlugin demoEvent
        = [.getMatchingTriggersCall [1, 2] demoEvent, .logInfoCall [7]] := by
  constructor
  · intro self event
    cases h : (self._get_all_relevant_event_sources event).isEmpty <;>
      simp [process_event, h, Call.isHubDispatch]
  · rfl

/-- Claim C4: when `_get_all_relevant_event_sources` returns the empty list,
`process_event` terminates with an empty trace — `_get_matching_triggers` is
never called, nothing is logged, and no dispatch occurs. -/
theorem c4_empty_relevant_sources_no_work
    (self : BaseEventSourcePlugin) (event : BaseEvent)
    (h : self._get_all_relevant_event_sources event = []) :
    process_event self event = [] := by
  unfold process_event
  rw [h]
  rfl

/-- Witness for C4: a plugin with no relevant event sources processes the
demo event with an empty trace. -/
theorem c4_witness :
    noSourcePlugin._get_all_relevant_event_sources demoEvent = []
    ∧ process_event noSourcePlugin demoEvent = [] :=
  ⟨rfl, c4_empty_relevant_sources_no_work noSourcePlugin demoEvent rfl⟩

/-- Claim C5: the spec-modelled matching-trigger computation (the result
`process_event` logs when the store-backed implementation is plugged in)
contains each trigger identifier at most once, and its members are exactly
the identifiers of triggers registered against a relevant event source whose
filter matches the event — so a trigger reachable through several relevant
event sources still appears once. -/
theorem c5_matching_triggers_deduplicated
    (triggers : List Trigger) (event_source_ids : List UUID)
    (event : BaseEvent) :
    (matchingTriggersFromStore triggers event_source_ids event).Nodup
    ∧ ∀ u : UUID,
        u ∈ matchingTriggersFromStore triggers event_source_ids event ↔
          ∃ t, t ∈ triggers ∧ t.id = u
            ∧ t.event_source_id ∈ event_source_ids
            ∧ t.filter.event_matches_filter event = true := by
  constructor
  · exact List.nodup_dedup _
  · intro u
    unfold matchingTriggersFromStore
    rw [List.mem_dedup, List.mem_map]
    constructor
    · rintro ⟨t, ht, hid⟩
      obtain ⟨htmem, hcond⟩ := List.mem_filter.mp ht
      rw [Bool.and_eq_true, decide_eq_true_eq] at hcond
      exact ⟨t, htmem, hid, hcond.1, hcond.2⟩
    · rintro ⟨t, htmem, hid, hsrc, hmatch⟩
      refine ⟨t, List.mem_filter.mpr ⟨htmem, ?_⟩, hid⟩
      rw [Bool.and_eq_true, decide_eq_true_eq]
      exact ⟨hsrc, hmatch⟩

/-- Witness for C5 on the demo store: trigger 7 is registered against both
relevant event sources 1 and 2 with a matching filter, yet the result is
exactly the duplicate-free list containing 7. -/
theorem c5_witness :
    matchingTriggersFromStore demoTriggers [1, 2] demoEvent = [7]
    ∧ (matchingTriggersFromStore demoTriggers [1, 2] demoEvent).Nodup :=
  ⟨rfl, (c5_matching_triggers_deduplicated demoTriggers [1, 2] demoEvent).1⟩

/-- Claim C6: the flavor-introspection response bundles exactly the flavor
name, the plugin-type tag fixed to the event-source plugin type, and the two
configuration schemas as returned by the schema getters; `EventFlavorResponse`
is a first-order record of those four fields, so the bundle is serializable. -/
theorem c6_flavor_response_bundles_fields
    (cls : BaseEventSourcePluginFlavor) :
    get_plugin_flavor_response_model cls
      = { flavor_name := cls.FLAVOR
          plugin_type := PluginType.EVENT_SOURCE
          source_config_schema := get_event_source_config_schema cls
          filter_config_schema := get_event_filter_config_schema cls } :=
  rfl

/-- Claim C7 (counterexample): on the spec's wrong-typed webhook request the
underlying pydantic error names the failing field `repo_url`, but
`create_event_source` raises the constant `ValueError("Invalid
Configuration.")`, an error identifying no failing fields at all. -/
theorem c7_counterexample_error_names_no_field :
    webhookSourceConfigClass.build badRequest.configuration
        = .error (.validationError ["repo_url"])
    ∧ (create_event_source demoPlugin badRequest).1
        = .error (.valueError "Invalid Configuration.")
    ∧ (PyExc.valueError "Invalid Configuration.").failed_field_names = [] :=
  ⟨rfl, rfl, rfl⟩

/-- Claim C7 as amended: on every validation failure `create_event_source`
raises the same constant generic error, independent of which fields failed,
and that error identifies no failing fields. -/
theorem c7_amended_generic_error
    (self : BaseEventSourcePlugin) (req : EventSourceRequest) (e : PyExc)
    (hbuild : self.config_class.build req.configuration = .error e)
    (hval : e.isValueError = true) :
    (create_event_source self req).1
        = .error (.valueError "Invalid Configuration.")
    ∧ (PyExc.valueError "Invalid Configuration.").failed_field_names = [] := by
  unfold create_event_source _fail_if_event_source_configuration_invalid
  rw [hbuild]
  simp [hval, PyExc.failed_field_names]

/-- Witness for the amended C7: two requests failing on different fields of
the two-field configuration class produce the identical generic error. -/
theorem c7_witness :
    twoFieldConfigClass.build tokenMissingRequest.configuration
        = .error (.validationError ["token"])
    ∧ twoFieldConfigClass.build repoUrlMissingRequest.configuration
        = .error (.validationError ["repo_url"])
    ∧ (create_event_source twoFieldPlugin tokenMissingRequest).1
        = .error (.valueError "Invalid Configuration.")
    ∧ (create_event_source twoFieldPlugin repoUrlMissingRequest).1
        = .error (.valueError "Invalid Configuration.") :=
  ⟨rfl, rfl,
   (c7_amended_generic_error twoFieldPlugin tokenMissingRequest
      (.validationError ["token"]) rfl rfl).1,
   (c7_amended_generic_error twoFieldPlugin repoUrlMissingRequest
      (.validationError ["repo_url"]) rfl rfl).1⟩

/-- Claim C8: filter evaluation is deterministic — in the embedding a filter
is a total boolean function of the event, so the same (event, filter) pair
always yields the same boolean and evaluation cannot raise — and the
spec-modelled webhook branch filter returns false, not an error, on any event
shape it cannot interpret (no `branch` field). -/
theorem c8_filter_evaluation_pure_total
    (f : EventFilterConfig) (ev : BaseEvent) (b : String)
    (h : ev.fields.lookup "branch" = none) :
    f.event_matches_filter ev = f.event_matches_filter ev
    ∧ (branchFilter b).event_matches_filter ev = false := by
  refine ⟨rfl, ?_⟩
  simp only [branchFilter]
  rw [h]

/-- Witness for C8: an event with only a `repo_url` field has no `branch`
field, and the branch filter evaluates to false on it, twice identically. -/
theorem c8_witness :
    (⟨[("repo_url", Value.str "x")]⟩ : BaseEvent).fields.lookup "branch" = none
    ∧ (branchFilter "main").event_matches_filter ⟨[("repo_url", Value.str "x")]⟩
        = false :=
  ⟨rfl,
   (c8_filter_evaluation_pure_total (branchFilter "main")
      ⟨[("repo_url", Value.str "x")]⟩ "main" rfl).2⟩

/-- Claim C9: a `ValueError`-kind failure of configuration construction
(including pydantic `ValidationError`) is converted into the constant
`InvalidConfiguration` error, while any other exception propagates unchanged;
in both cases the trace is empty, so `_create_event_source` is not invoked. -/
theorem c9_only_value_errors_converted
    (self : BaseEventSourcePlugin) (req : EventSourceRequest) (e : PyExc)
    (hbuild : self.config_class.build req.configuration = .error e) :
    (create_event_source self req).1
        = .error (if e.isValueError then .valueError "Invalid Configuration."
                  else e)
    ∧ (create_event_source self req).2 = [] := by
  unfold create_event_source _fail_if_event_source_configuration_invalid
  rw [hbuild]
  cases he : e.isValueError <;> simp [he]

/-- Witness for C9: a non-ValueError exception raised during configuration
construction propagates unchanged out of `create_event_source`, with no
persistence call. -/
theorem c9_witness :
    throwingConfigClass.build goodRequest.configuration
        = .error (.otherError "TypeError: unhashable type")
    ∧ (create_event_source throwingPlugin goodRequest).1
        = .error (.otherError "TypeError: unhashable type")
    ∧ (create_event_source throwingPlugin goodRequest).2 = [] :=
  ⟨rfl,
   (c9_only_value_errors_converted throwingPlugin goodRequest
      (.otherError "TypeError: unhashable type") rfl).1,
   (c9_only_value_errors_converted throwingPlugin goodRequest
      (.otherError "TypeError: unhashable type") rfl).2⟩

/-- Claim C10: when validation succeeds, `create_event_source` invokes
`_create_event_source` exactly once on the original, unchanged request — the
typed configuration value `t` built during validation is discarded (the
conclusion does not depend on it) — and returns exactly the response the
extension point produced. -/
theorem c10_request_passed_unchanged
    (self : BaseEventSourcePlugin) (req : EventSourceRequest)
    (t : TypedConfig)
    (hbuild : self.config_class.build req.configuration = .ok t) :
    (create_event_source self req).1 = .ok (self._create_event_source req)
    ∧ (create_event_source self req).2 = [.createEventSourceCall req] := by
  unfold create_event_source _fail_if_event_source_configuration_invalid
  rw [hbuild]
  exact ⟨rfl, rfl⟩

/-- Witness for C10: the valid webhook request validates, and the plugin
returns the demo response produced by `_create_event_source` on that same
request, which was called exactly once. -/
theorem c10_witness :
    webhookSourceConfigClass.build goodRequest.configuration
        = .ok ⟨[("repo_url", Value.str "https://x/y")]⟩
    ∧ (create_event_source demoPlugin goodRequest).1 = .ok demoResponse
    ∧ (create_event_source demoPlugin goodRequest).2
        = [.createEventSourceCall goodRequest] :=
  ⟨rfl,
   (c10_request_passed_unchanged demoPlugin goodRequest
      ⟨[("repo_url", Value.str "https://x/y")]⟩ rfl).1,
   (c10_request_passed_unchanged demoPlugin goodRequest
      ⟨[("repo_url", Value.str "https://x/y")]⟩ rfl).2⟩

end EventSources
